import Mathlib

/-!
Verification of the abTEM core against its specification.

This file gives a shallow embedding of the parts of the source relevant to
the grid-consistency layer (`abtem/bases.py`), the cache invalidation layer
(`abtem/bases.py`), the wave representation (`abtem/waves/waves.py`), the
detectors (`abtem/detect.py`) and the device shims (`abtem/device.py`),
together with theorems settling the specification claims.

Machine floats are modelled by rationals (`ℚ`), numpy integer arrays by `ℤ`
vectors, and `None`-able Python attributes by `Option`.  Numpy arrays of
fixed dimensionality `d` are modelled componentwise as functions `Fin d → ℚ`;
all the grid arithmetic in the source is elementwise, so this is exact.
-/

namespace AbTEM

/-- A float vector of dimension `d` (a numpy float array). -/
abbrev Vec (d : ℕ) := Fin d → ℚ

/-- An int vector of dimension `d` (a numpy int array). -/
abbrev IVec (d : ℕ) := Fin d → ℤ

/-- Componentwise cast of an int vector to a float vector. -/
def qcast {d : ℕ} (v : IVec d) : Vec d := fun i => (v i : ℚ)

/-- `astype(np.int)` on a float vector: truncation toward zero, as in C. -/
def truncInt {d : ℕ} (v : Vec d) : IVec d := fun i => (v i).num / ((v i).den : ℤ)

/-- Errors raised by the embedded code (`RuntimeError`/`ValueError` sites). -/
inductive PyError where
  | lockedProperty       -- GridProperty.value setter: 'grid property locked'
  | overdetermined       -- Grid extent/gpts/sampling setter: raise RuntimeError()
  | inconsistentExtent   -- check_grids_can_match: 'inconsistent grid extent'
  | inconsistentGpts     -- check_grids_can_match: 'inconsistent grid gpts'
  | extentNotInferable   -- match_grid: 'grid extent cannot be inferred'
  | gptsNotInferable     -- match_grid: 'grid gpts cannot be inferred'
  | inconsistentEnergies -- check_match / check_same_energy: 'inconsistent energies'
  | energyNotDefined     -- check_is_energy_defined / check_is_defined
  | valueError           -- fft2_convolve: raise ValueError()
  deriving DecidableEq, Repr

/-! ## GridProperty (`abtem/bases.py`, class `GridProperty`)

A `GridProperty` stores an optional vector value and a `locked` flag.  The
Python `_validate` step (length check, dtype cast) is captured by the Lean
types: values of the extent/sampling properties are `Vec d`, values of the
gpts property are `IVec d`.
-/

structure GridProperty (d : ℕ) (α : Type) where
  value : Option (Fin d → α)
  locked : Bool
  deriving DecidableEq

/-- The `value` setter of `GridProperty`: raises `'grid property locked'` when
the property is locked, leaving the stored value unchanged; otherwise stores
the (validated) value.  The returned pair is the state of the property after
the call together with the raised error, if any. -/
def GridProperty.setValue {d : ℕ} {α : Type} (p : GridProperty d α)
    (v : Option (Fin d → α)) : GridProperty d α × Option PyError :=
  if p.locked then (p, some PyError.lockedProperty)
  else ({ p with value := v }, none)

/-! ## Grid (`abtem/bases.py`, class `Grid`) -/

structure Grid (d : ℕ) where
  extentProp : GridProperty d ℚ    -- self._extent
  gptsProp : GridProperty d ℤ      -- self._gpts
  samplingProp : GridProperty d ℚ  -- self._sampling
  endpoint : Bool
  deriving DecidableEq

namespace Grid

variable {d : ℕ}

/-- `Grid._adjusted_extent(gpts, sampling)`: `(gpts - 1) * sampling` when the
grid includes its endpoint, else `gpts * sampling`.  The gpts argument is a
float vector because several call sites pass the float-valued `self.gpts`
property. -/
def adjustedExtent (endpoint : Bool) (gpts sampling : Vec d) : Vec d :=
  fun i => if endpoint then (gpts i - 1) * sampling i else gpts i * sampling i

/-- `Grid._adjusted_gpts(extent, sampling)`:
`ceil(extent / sampling).astype(np.int)`, plus one when the grid includes its
endpoint. -/
def adjustedGpts (endpoint : Bool) (extent sampling : Vec d) : IVec d :=
  fun i => if endpoint then ⌈extent i / sampling i⌉ + 1 else ⌈extent i / sampling i⌉

/-- `Grid._adjusted_sampling(extent, gpts)`: `extent / (gpts - 1)` when the
grid includes its endpoint, else `extent / gpts`. -/
def adjustedSampling (endpoint : Bool) (extent gpts : Vec d) : Vec d :=
  fun i => if endpoint then extent i / (gpts i - 1) else extent i / gpts i

/-!
The three property getters call each other: e.g. the `extent` getter, when
both gpts and sampling are locked, reads `self.gpts` and `self.sampling`,
which are themselves property getters.  The inner getter takes its derived
branch only when the remaining two properties are also locked, i.e. only when
all three properties are locked — a state in which the Python getters recurse
forever.  We therefore model the inner reads by the raw stored values, which
agrees with the source whenever the getters terminate.  A derived branch whose
raw operands are missing models the Python `TypeError` (arithmetic on `None`)
as `none`; no claim exercises that state.
-/

/-- The `extent` property getter: the stored value, except that when both
gpts and sampling are locked it returns `_adjusted_extent(gpts, sampling)`. -/
def extentGet (g : Grid d) : Option (Vec d) :=
  if g.gptsProp.locked && g.samplingProp.locked then
    match g.gptsProp.value, g.samplingProp.value with
    | some gv, some sv => some (adjustedExtent g.endpoint (qcast gv) sv)
    | _, _ => none
  else g.extentProp.value

/-- The `gpts` property getter.  NOTE: when both extent and sampling are
locked, the source computes `self._adjusted_sampling(self.extent,
self.sampling)` — i.e. `extent / sampling` without the ceiling — rather than
`self._adjusted_gpts`; the result is float-valued.  We embed this faithfully,
so the getter is `ℚ`-valued, with the raw integer gpts cast in the normal
branch. -/
def gptsGet (g : Grid d) : Option (Vec d) :=
  if g.extentProp.locked && g.samplingProp.locked then
    match g.extentProp.value, g.samplingProp.value with
    | some ev, some sv => some (adjustedSampling g.endpoint ev sv)
    | _, _ => none
  else g.gptsProp.value.map qcast

/-- The `sampling` property getter: the stored value, except that when both
extent and gpts are locked it returns `_adjusted_sampling(extent, gpts)`. -/
def samplingGet (g : Grid d) : Option (Vec d) :=
  if g.extentProp.locked && g.gptsProp.locked then
    match g.extentProp.value, g.gptsProp.value with
    | some ev, some gv => some (adjustedSampling g.endpoint ev (qcast gv))
    | _, _ => none
  else g.samplingProp.value

/-- The `extent` property setter.  Returns the grid state after the call
(including partial mutations made before an exception) and the raised error,
if any.  The observer notification fired on success carries no grid-state
effect and is modelled separately (see `Cache.notify`). -/
def setExtent (g : Grid d) (value : Option (Vec d)) : Grid d × Option PyError :=
  if g.gptsProp.locked && g.samplingProp.locked then
    (g, some PyError.overdetermined)
  else
    let step :=
      if !g.samplingProp.locked && value.isSome && (gptsGet g).isSome then
        -- self._sampling.value = self._adjusted_sampling(value, self.gpts)
        ({ g with samplingProp :=
            { g.samplingProp with
              value := some (adjustedSampling g.endpoint (value.getD 0) ((gptsGet g).getD 0)) } },
          (none : Option PyError))
      else if !g.gptsProp.locked && value.isSome && (samplingGet g).isSome then
        -- self._gpts.value = self._adjusted_gpts(value, self.sampling)
        let g1 : Grid d :=
          { g with gptsProp :=
              { g.gptsProp with
                value := some (adjustedGpts g.endpoint (value.getD 0) ((samplingGet g).getD 0)) } }
        -- self._sampling.value = self._adjusted_sampling(value, self.gpts)
        if g1.samplingProp.locked then (g1, some PyError.lockedProperty)
        else
          ({ g1 with samplingProp :=
              { g1.samplingProp with
                value := some (adjustedSampling g1.endpoint (value.getD 0) ((gptsGet g1).getD 0)) } },
            none)
      else (g, none)
    match step with
    | (g1, some e) => (g1, some e)
    | (g1, none) =>
      -- self._extent.value = value
      if g1.extentProp.locked then (g1, some PyError.lockedProperty)
      else ({ g1 with extentProp := { g1.extentProp with value := value } }, none)

/-- The `gpts` property setter.  The supplied value is used unvalidated in the
adjustment formulas (as in the source) and cast with `astype(np.int)` when
finally stored. -/
def setGpts (g : Grid d) (value : Option (Vec d)) : Grid d × Option PyError :=
  if g.extentProp.locked && g.samplingProp.locked then
    (g, some PyError.overdetermined)
  else
    let step :=
      if !g.samplingProp.locked && (extentGet g).isSome && value.isSome then
        -- self._sampling.value = self._adjusted_sampling(self.extent, value)
        ({ g with samplingProp :=
            { g.samplingProp with
              value := some (adjustedSampling g.endpoint ((extentGet g).getD 0) (value.getD 0)) } },
          (none : Option PyError))
      else if !g.extentProp.locked && value.isSome && (samplingGet g).isSome then
        -- self._extent.value = self._adjusted_extent(value, self.sampling)
        ({ g with extentProp :=
            { g.extentProp with
              value := some (adjustedExtent g.endpoint (value.getD 0) ((samplingGet g).getD 0)) } },
          none)
      else (g, none)
    match step with
    | (g1, some e) => (g1, some e)
    | (g1, none) =>
      -- self._gpts.value = value
      if g1.gptsProp.locked then (g1, some PyError.lockedProperty)
      else ({ g1 with gptsProp := { g1.gptsProp with value := value.map truncInt } }, none)

/-- The `sampling` property setter.  In the first branch the local `value` is
rebound to `self._adjusted_sampling(self.extent, self.gpts)` after gpts has
been recomputed, exactly as in the source. -/
def setSampling (g : Grid d) (value : Option (Vec d)) : Grid d × Option PyError :=
  if g.gptsProp.locked && g.extentProp.locked then
    (g, some PyError.overdetermined)
  else
    let step :=
      if !g.gptsProp.locked && (extentGet g).isSome && value.isSome then
        -- self._gpts.value = self._adjusted_gpts(self.extent, value)
        let g1 : Grid d :=
          { g with gptsProp :=
              { g.gptsProp with
                value := some (adjustedGpts g.endpoint ((extentGet g).getD 0) (value.getD 0)) } }
        -- value = self._adjusted_sampling(self.extent, self.gpts)
        ((g1, some (adjustedSampling g1.endpoint ((extentGet g1).getD 0) ((gptsGet g1).getD 0))),
          (none : Option PyError))
      else if !g.extentProp.locked && (gptsGet g).isSome && value.isSome then
        -- self._extent.value = self._adjusted_extent(self.gpts, value)
        (({ g with extentProp :=
            { g.extentProp with
              value := some (adjustedExtent g.endpoint ((gptsGet g).getD 0) (value.getD 0)) } },
          value), none)
      else ((g, value), none)
    match step with
    | ((g1, _), some e) => (g1, some e)
    | ((g1, v1), none) =>
      -- self._sampling.value = value
      if g1.samplingProp.locked then (g1, some PyError.lockedProperty)
      else ({ g1 with samplingProp := { g1.samplingProp with value := v1 } }, none)

/-- Assignment `self._extent.value = v` inside `Grid` methods (goes through
the `GridProperty.value` setter, so it raises on a locked property). -/
def assignExtentValue (g : Grid d) (v : Option (Vec d)) : Grid d × Option PyError :=
  match g.extentProp.setValue v with
  | (p, e) => ({ g with extentProp := p }, e)

/-- Assignment `self._gpts.value = v` inside `Grid` methods. -/
def assignGptsValue (g : Grid d) (v : Option (IVec d)) : Grid d × Option PyError :=
  match g.gptsProp.setValue v with
  | (p, e) => ({ g with gptsProp := p }, e)

/-- Assignment `self._sampling.value = v` inside `Grid` methods. -/
def assignSamplingValue (g : Grid d) (v : Option (Vec d)) : Grid d × Option PyError :=
  match g.samplingProp.setValue v with
  | (p, e) => ({ g with samplingProp := p }, e)

/-- Sequencing of the statements of a method body: a raised exception aborts
the rest, keeping the mutations made so far. -/
def andThen (r : Grid d × Option PyError) (f : Grid d → Grid d × Option PyError) :
    Grid d × Option PyError :=
  match r with
  | (g, some e) => (g, some e)
  | (g, none) => f g

/-- `Grid.__init__`.  The three properties are taken as `GridProperty`
states (a plain value argument corresponds to an unlocked property holding
that value); `extentArgGiven`/`gptsArgGiven` record whether the constructor
arguments `extent`/`gpts` were not `None` (a `GridProperty` argument counts
as given even when its value is unset), which the last two blocks of the
constructor test. -/
def gridInit (endpoint : Bool) (extentP : GridProperty d ℚ) (gptsP : GridProperty d ℤ)
    (samplingP : GridProperty d ℚ) (extentArgGiven gptsArgGiven : Bool) :
    Grid d × Option PyError :=
  let g0 : Grid d := ⟨extentP, gptsP, samplingP, endpoint⟩
  -- if self.extent is None: if defined(self.gpts) and defined(self.sampling):
  --     self._extent.value = self._adjusted_extent(self.gpts, self.sampling)
  let b1 := fun (g : Grid d) =>
    if (extentGet g).isNone && !((gptsGet g).isNone || (samplingGet g).isNone) then
      assignExtentValue g
        (some (adjustedExtent endpoint ((gptsGet g).getD 0) ((samplingGet g).getD 0)))
    else (g, none)
  -- if self.gpts is None: ... self._gpts.value = self._adjusted_gpts(self.extent, self.sampling)
  let b2 := fun (g : Grid d) =>
    if (gptsGet g).isNone && !((extentGet g).isNone || (samplingGet g).isNone) then
      assignGptsValue g
        (some (adjustedGpts endpoint ((extentGet g).getD 0) ((samplingGet g).getD 0)))
    else (g, none)
  -- if self.sampling is None: ... self._sampling.value = self._adjusted_sampling(self.extent, self.gpts)
  let b3 := fun (g : Grid d) =>
    if (samplingGet g).isNone && !((extentGet g).isNone || (gptsGet g).isNone) then
      assignSamplingValue g
        (some (adjustedSampling endpoint ((extentGet g).getD 0) ((gptsGet g).getD 0)))
    else (g, none)
  -- if (extent is not None) & (self.gpts is not None): self._sampling.value = ...
  let b4 := fun (g : Grid d) =>
    if extentArgGiven && (gptsGet g).isSome then
      assignSamplingValue g
        (some (adjustedSampling endpoint ((extentGet g).getD 0) ((gptsGet g).getD 0)))
    else (g, none)
  -- if (gpts is not None) & (self.extent is not None): self._sampling.value = ...
  let b5 := fun (g : Grid d) =>
    if gptsArgGiven && (extentGet g).isSome then
      assignSamplingValue g
        (some (adjustedSampling endpoint ((extentGet g).getD 0) ((gptsGet g).getD 0)))
    else (g, none)
  andThen (andThen (andThen (andThen (b1 g0) b2) b3) b4) b5

/-- `Grid` built from plain (non-`GridProperty`) constructor arguments: all
three properties unlocked. -/
def gridOfValues (endpoint : Bool) (extent : Option (Vec d)) (gpts : Option (IVec d))
    (sampling : Option (Vec d)) : Grid d × Option PyError :=
  gridInit endpoint ⟨extent, false⟩ ⟨gpts, false⟩ ⟨sampling, false⟩
    extent.isSome gpts.isSome

/-- `Grid.check_grids_can_match`: raises when both grids define extent and the
values differ (exact, tolerance-free `np.any(... != ...)`), else when both
define gpts and the values differ. -/
def checkGridsCanMatch (g1 g2 : Grid d) : Option PyError :=
  if (extentGet g1).isSome && (extentGet g2).isSome
      && decide (extentGet g1 ≠ extentGet g2) then
    some PyError.inconsistentExtent
  else if (gptsGet g1).isSome && (gptsGet g2).isSome
      && decide (gptsGet g1 ≠ gptsGet g2) then
    some PyError.inconsistentGpts
  else none

/-- The extent half of `Grid.match_grid`: raise when extent is undefined on
both grids, else copy the defined extent (through the `extent` property
setter) to the grid where it is undefined. -/
def matchExtentPhase (g1 g2 : Grid d) : (Grid d × Grid d) × Option PyError :=
  if (extentGet g1).isNone && (extentGet g2).isNone then
    ((g1, g2), some PyError.extentNotInferable)
  else if (extentGet g1).isNone then
    (((setExtent g1 (extentGet g2)).1, g2), (setExtent g1 (extentGet g2)).2)
  else if (extentGet g2).isNone then
    ((g1, (setExtent g2 (extentGet g1)).1), (setExtent g2 (extentGet g1)).2)
  else ((g1, g2), none)

/-- The gpts half of `Grid.match_grid` (runs on the states left by the extent
half). -/
def matchGptsPhase (g1 g2 : Grid d) : (Grid d × Grid d) × Option PyError :=
  if (gptsGet g1).isNone && (gptsGet g2).isNone then
    ((g1, g2), some PyError.gptsNotInferable)
  else if (gptsGet g1).isNone then
    (((setGpts g1 (gptsGet g2)).1, g2), (setGpts g1 (gptsGet g2)).2)
  else if (gptsGet g2).isNone then
    ((g1, (setGpts g2 (gptsGet g1)).1), (setGpts g2 (gptsGet g1)).2)
  else ((g1, g2), none)

/-- `Grid.match_grid(other)`: the mismatch check first (so a mismatch failure
mutates neither grid), then extent propagation, then gpts propagation. -/
def matchGrid (g1 g2 : Grid d) : (Grid d × Grid d) × Option PyError :=
  match checkGridsCanMatch g1 g2 with
  | some e => ((g1, g2), some e)
  | none =>
    match matchExtentPhase g1 g2 with
    | (p, some e) => (p, some e)
    | (p, none) => matchGptsPhase p.1 p.2

/-- Grids whose three properties are all unlocked (the state produced by
constructing a `Grid` from plain values, as in claim C4). -/
def allUnlocked (g : Grid d) : Prop :=
  g.extentProp.locked = false ∧ g.gptsProp.locked = false ∧ g.samplingProp.locked = false

instance (g : Grid d) : Decidable (allUnlocked g) := by
  unfold allUnlocked; infer_instance

/-- On a grid whose gpts (or sampling) property is unlocked, the `extent`
getter returns the raw stored value. -/
theorem extentGet_unlocked (g : Grid d) (h : g.gptsProp.locked = false) :
    extentGet g = g.extentProp.value := by
  simp [extentGet, h]

/-- On a grid whose extent (or sampling) property is unlocked, the `gpts`
getter returns the raw stored int vector, cast to floats. -/
theorem gptsGet_unlocked (g : Grid d) (h : g.extentProp.locked = false) :
    gptsGet g = g.gptsProp.value.map qcast := by
  simp [gptsGet, h]

/-- On a grid whose extent (or gpts) property is unlocked, the `sampling`
getter returns the raw stored value. -/
theorem samplingGet_unlocked (g : Grid d) (h : g.extentProp.locked = false) :
    samplingGet g = g.samplingProp.value := by
  simp [samplingGet, h]

/-- `astype(np.int)` after an int-to-float cast is the identity. -/
theorem truncInt_qcast (v : IVec d) : truncInt (qcast v) = v := by
  funext i
  simp [truncInt, qcast]

/-- Invariant maintained by every construction and successful mutation of an
unlocked grid: all three values defined and positive (gpts at least 1, at
least 2 for endpoint-inclusive grids) and `extent = _adjusted_extent(gpts,
sampling)`. -/
def GridInv (g : Grid d) : Prop :=
  allUnlocked g ∧
  ∃ e gv s, g.extentProp.value = some e ∧ g.gptsProp.value = some gv ∧
    g.samplingProp.value = some s ∧
    (∀ i, 0 < e i) ∧ (∀ i, (if g.endpoint then 2 else 1) ≤ gv i) ∧ (∀ i, 0 < s i) ∧
    ∀ i, e i = adjustedExtent g.endpoint (qcast gv) s i

/-- Evaluation of the `extent` setter on an unlocked, fully defined grid:
sampling is recomputed from the new extent and the (unchanged) gpts, then
the extent is stored; no error is raised. -/
theorem setExtent_unlocked_defined (g : Grid d) (hu : allUnlocked g)
    (e0 : Vec d) (gv : IVec d) (s0 : Vec d)
    (he : g.extentProp.value = some e0) (hg : g.gptsProp.value = some gv)
    (hs : g.samplingProp.value = some s0) (v : Vec d) :
    setExtent g (some v) =
      ({ g with
          extentProp := { g.extentProp with value := some v },
          samplingProp := { g.samplingProp with
            value := some (adjustedSampling g.endpoint v (qcast gv)) } }, none) := by
  obtain ⟨h1, h2, h3⟩ := hu
  simp [setExtent, gptsGet_unlocked _ h1, h2, h3, hg, h1]

/-- Evaluation of the `gpts` setter on an unlocked, fully defined grid:
sampling is recomputed from the (unchanged) extent and the new gpts, then
the gpts are stored (cast back to int); no error is raised. -/
theorem setGpts_unlocked_defined (g : Grid d) (hu : allUnlocked g)
    (e0 : Vec d) (gv : IVec d) (s0 : Vec d)
    (he : g.extentProp.value = some e0) (hg : g.gptsProp.value = some gv)
    (hs : g.samplingProp.value = some s0) (v : IVec d) :
    setGpts g (some (qcast v)) =
      ({ g with
          gptsProp := { g.gptsProp with value := some v },
          samplingProp := { g.samplingProp with
            value := some (adjustedSampling g.endpoint e0 (qcast v)) } }, none) := by
  obtain ⟨h1, h2, h3⟩ := hu
  simp [setGpts, extentGet_unlocked _ h2, he, h2, h3, truncInt_qcast]

/-- Evaluation of the `sampling` setter on an unlocked, fully defined grid:
gpts is recomputed as `_adjusted_gpts(extent, value)`, the requested value is
replaced by `_adjusted_sampling(extent, gpts)` and stored; no error is
raised. -/
theorem setSampling_unlocked_defined (g : Grid d) (hu : allUnlocked g)
    (e0 : Vec d) (gv : IVec d) (s0 : Vec d)
    (he : g.extentProp.value = some e0) (hg : g.gptsProp.value = some gv)
    (hs : g.samplingProp.value = some s0) (v : Vec d) :
    setSampling g (some v) =
      ({ g with
          gptsProp := { g.gptsProp with
            value := some (adjustedGpts g.endpoint e0 v) },
          samplingProp := { g.samplingProp with
            value := some (adjustedSampling g.endpoint e0
              (qcast (adjustedGpts g.endpoint e0 v))) } }, none) := by
  obtain ⟨h1, h2, h3⟩ := hu
  simp [setSampling, extentGet, gptsGet, he, h1, h2, h3]

/-- `_adjusted_extent` applied to `_adjusted_sampling` recovers the extent,
provided gpts is at least 1 (at least 2 for endpoint-inclusive grids). -/
theorem adjusted_roundtrip (endpoint : Bool) (e : Vec d) (gv : IVec d)
    (hg : ∀ i, (if endpoint then 2 else 1) ≤ gv i) :
    ∀ i, e i = adjustedExtent endpoint (qcast gv) (adjustedSampling endpoint e (qcast gv)) i := by
  intro i
  have hgi := hg i
  cases endpoint with
  | false =>
    have hgi1 : 1 ≤ gv i := by simpa using hgi
    have hne : (qcast gv i : ℚ) ≠ 0 := by
      simp only [qcast]
      exact_mod_cast (by omega : gv i ≠ 0)
    simp only [adjustedExtent, adjustedSampling, Bool.false_eq_true, if_false]
    rw [mul_comm, div_mul_cancel₀ _ hne]
  | true =>
    have hgi2 : 2 ≤ gv i := by simpa using hgi
    have hne : (qcast gv i : ℚ) - 1 ≠ 0 := by
      simp only [qcast]
      have h1 : (gv i : ℚ) ≠ 1 := by exact_mod_cast (by omega : gv i ≠ 1)
      intro hcon
      exact h1 (by linarith)
    simp only [adjustedExtent, adjustedSampling, if_true]
    rw [mul_comm, div_mul_cancel₀ _ hne]

/-- `ceil(e / v)` is at least 1 when `e` and `v` are positive. -/
theorem one_le_ceil_div (e v : ℚ) (he : 0 < e) (hv : 0 < v) : 1 ≤ ⌈e / v⌉ := by
  have : (0 : ℚ) < e / v := div_pos he hv
  exact Int.ceil_pos.mpr this

/-- The grids reachable by the constructions and setter calls of claim C4:
a `Grid` built from plain values for exactly two of extent/gpts/sampling
(positive, with gpts at least 2 on endpoint-inclusive grids), followed by
any number of successful setter calls with positive defined values. -/
inductive ReachableGrid {d : ℕ} : Grid d → Prop
  | initEG (endpoint : Bool) (e : Vec d) (gv : IVec d)
      (he : ∀ i, 0 < e i) (hg : ∀ i, (if endpoint then 2 else 1) ≤ gv i) :
      ReachableGrid (gridOfValues endpoint (some e) (some gv) none).1
  | initES (endpoint : Bool) (e : Vec d) (s : Vec d)
      (he : ∀ i, 0 < e i) (hs : ∀ i, 0 < s i) :
      ReachableGrid (gridOfValues endpoint (some e) none (some s)).1
  | initGS (endpoint : Bool) (gv : IVec d) (s : Vec d)
      (hg : ∀ i, (if endpoint then 2 else 1) ≤ gv i) (hs : ∀ i, 0 < s i) :
      ReachableGrid (gridOfValues endpoint none (some gv) (some s)).1
  | stepExtent (g : Grid d) (v : Vec d) (hv : ∀ i, 0 < v i) (hr : ReachableGrid g)
      (hok : (setExtent g (some v)).2 = none) :
      ReachableGrid (setExtent g (some v)).1
  | stepGpts (g : Grid d) (v : IVec d)
      (hv : ∀ i, (if g.endpoint then 2 else 1) ≤ v i) (hr : ReachableGrid g)
      (hok : (setGpts g (some (qcast v))).2 = none) :
      ReachableGrid (setGpts g (some (qcast v))).1
  | stepSampling (g : Grid d) (v : Vec d) (hv : ∀ i, 0 < v i) (hr : ReachableGrid g)
      (hok : (setSampling g (some v)).2 = none) :
      ReachableGrid (setSampling g (some v)).1

/-- Evaluation of the constructor with extent and gpts supplied: sampling is
derived as `_adjusted_sampling(extent, gpts)`. -/
theorem gridOfValues_extent_gpts (endpoint : Bool) (e : Vec d) (gv : IVec d) :
    gridOfValues endpoint (some e) (some gv) none =
      (⟨⟨some e, false⟩, ⟨some gv, false⟩,
        ⟨some (adjustedSampling endpoint e (qcast gv)), false⟩, endpoint⟩, none) := by
  simp [gridOfValues, gridInit, andThen, extentGet, gptsGet, samplingGet,
    assignSamplingValue, GridProperty.setValue]

/-- Evaluation of the constructor with extent and sampling supplied: gpts is
derived as `_adjusted_gpts(extent, sampling)` and sampling is then readjusted
to `_adjusted_sampling(extent, gpts)`. -/
theorem gridOfValues_extent_sampling (endpoint : Bool) (e s : Vec d) :
    gridOfValues endpoint (some e) none (some s) =
      (⟨⟨some e, false⟩, ⟨some (adjustedGpts endpoint e s), false⟩,
        ⟨some (adjustedSampling endpoint e (qcast (adjustedGpts endpoint e s))), false⟩,
        endpoint⟩, none) := by
  simp [gridOfValues, gridInit, andThen, extentGet, gptsGet, samplingGet,
    assignGptsValue, assignSamplingValue, GridProperty.setValue]

/-- Evaluation of the constructor with gpts and sampling supplied: extent is
derived as `_adjusted_extent(gpts, sampling)` and sampling is then readjusted
to `_adjusted_sampling(extent, gpts)`. -/
theorem gridOfValues_gpts_sampling (endpoint : Bool) (gv : IVec d) (s : Vec d) :
    gridOfValues endpoint none (some gv) (some s) =
      (⟨⟨some (adjustedExtent endpoint (qcast gv) s), false⟩, ⟨some gv, false⟩,
        ⟨some (adjustedSampling endpoint (adjustedExtent endpoint (qcast gv) s) (qcast gv)),
          false⟩, endpoint⟩, none) := by
  simp [gridOfValues, gridInit, andThen, extentGet, gptsGet, samplingGet,
    assignExtentValue, assignSamplingValue, GridProperty.setValue]

/-- `_adjusted_sampling(extent, gpts)` is positive for positive extent and
admissible gpts. -/
theorem adjustedSampling_pos (endpoint : Bool) (e : Vec d) (gv : IVec d)
    (hepos : ∀ i, 0 < e i) (hgb : ∀ i, (if endpoint then 2 else 1) ≤ gv i) :
    ∀ i, 0 < adjustedSampling endpoint e (qcast gv) i := by
  intro i
  have hgi := hgb i
  cases endpoint with
  | false =>
    have : (0 : ℚ) < qcast gv i := by
      simp only [qcast]
      exact_mod_cast (by simpa using hgi : 1 ≤ gv i).trans_lt' (by omega)
    simpa [adjustedSampling] using div_pos (hepos i) this
  | true =>
    have h2 : 2 ≤ gv i := by simpa using hgi
    have : (0 : ℚ) < qcast gv i - 1 := by
      simp only [qcast]
      have : (2 : ℚ) ≤ (gv i : ℚ) := by exact_mod_cast h2
      linarith
    simpa [adjustedSampling] using div_pos (hepos i) this

/-- `_adjusted_gpts(extent, sampling)` is admissible for positive extent and
sampling. -/
theorem adjustedGpts_bound (endpoint : Bool) (e s : Vec d)
    (hepos : ∀ i, 0 < e i) (hspos : ∀ i, 0 < s i) :
    ∀ i, (if endpoint then 2 else 1) ≤ adjustedGpts endpoint e s i := by
  intro i
  have h1 := one_le_ceil_div (e i) (s i) (hepos i) (hspos i)
  cases endpoint with
  | false => simpa [adjustedGpts] using h1
  | true =>
    simp only [adjustedGpts, if_true]
    omega

/-- `_adjusted_extent(gpts, sampling)` is positive for admissible gpts and
positive sampling. -/
theorem adjustedExtent_pos (endpoint : Bool) (gv : IVec d) (s : Vec d)
    (hgb : ∀ i, (if endpoint then 2 else 1) ≤ gv i) (hspos : ∀ i, 0 < s i) :
    ∀ i, 0 < adjustedExtent endpoint (qcast gv) s i := by
  intro i
  have hgi := hgb i
  cases endpoint with
  | false =>
    have : (0 : ℚ) < qcast gv i := by
      simp only [qcast]
      exact_mod_cast (by omega : (0 : ℤ) < gv i)
    simpa [adjustedExtent] using mul_pos this (hspos i)
  | true =>
    have h2 : 2 ≤ gv i := by simpa using hgi
    have : (0 : ℚ) < qcast gv i - 1 := by
      simp only [qcast]
      have : (2 : ℚ) ≤ (gv i : ℚ) := by exact_mod_cast h2
      linarith
    simpa [adjustedExtent] using mul_pos this (hspos i)

/-- A grid whose sampling value is `_adjusted_sampling` of its extent and
gpts values satisfies the invariant. -/
theorem gridInv_parts (g : Grid d) (e : Vec d) (gv : IVec d)
    (hul : allUnlocked g)
    (hev : g.extentProp.value = some e) (hgv : g.gptsProp.value = some gv)
    (hsv : g.samplingProp.value = some (adjustedSampling g.endpoint e (qcast gv)))
    (hepos : ∀ i, 0 < e i) (hgb : ∀ i, (if g.endpoint then 2 else 1) ≤ gv i) :
    GridInv g :=
  ⟨hul, e, gv, adjustedSampling g.endpoint e (qcast gv), hev, hgv, hsv, hepos, hgb,
    adjustedSampling_pos g.endpoint e gv hepos hgb,
    adjusted_roundtrip g.endpoint e gv hgb⟩

/-- Every grid of claim C4 (construction from two plain values followed by
successful setter calls) satisfies the full invariant. -/
theorem gridInv_of_reachable (g : Grid d) (h : ReachableGrid g) : GridInv g := by
  induction h with
  | initEG endpoint e gv he hg =>
    rw [gridOfValues_extent_gpts]
    exact gridInv_parts _ e gv ⟨rfl, rfl, rfl⟩ rfl rfl rfl he hg
  | initES endpoint e s he hs =>
    rw [gridOfValues_extent_sampling]
    exact gridInv_parts _ e (adjustedGpts endpoint e s) ⟨rfl, rfl, rfl⟩ rfl rfl rfl he
      (adjustedGpts_bound endpoint e s he hs)
  | initGS endpoint gv s hg hs =>
    rw [gridOfValues_gpts_sampling]
    exact gridInv_parts _ (adjustedExtent endpoint (qcast gv) s) gv ⟨rfl, rfl, rfl⟩ rfl rfl rfl
      (adjustedExtent_pos endpoint gv s hg hs) hg
  | stepExtent g v hv hr hok ih =>
    obtain ⟨hul, e0, gv0, s0, he0, hg0, hs0, hep, hgb, hsp, hrel⟩ := ih
    rw [setExtent_unlocked_defined g hul e0 gv0 s0 he0 hg0 hs0 v]
    obtain ⟨h1, h2, h3⟩ := hul
    exact gridInv_parts _ v gv0 ⟨h1, h2, h3⟩ rfl hg0 rfl hv hgb
  | stepGpts g v hv hr hok ih =>
    obtain ⟨hul, e0, gv0, s0, he0, hg0, hs0, hep, hgb, hsp, hrel⟩ := ih
    rw [setGpts_unlocked_defined g hul e0 gv0 s0 he0 hg0 hs0 v]
    obtain ⟨h1, h2, h3⟩ := hul
    exact gridInv_parts _ e0 v ⟨h1, h2, h3⟩ he0 rfl rfl hep hv
  | stepSampling g v hv hr hok ih =>
    obtain ⟨hul, e0, gv0, s0, he0, hg0, hs0, hep, hgb, hsp, hrel⟩ := ih
    rw [setSampling_unlocked_defined g hul e0 gv0 s0 he0 hg0 hs0 v]
    obtain ⟨h1, h2, h3⟩ := hul
    exact gridInv_parts _ e0 (adjustedGpts g.endpoint e0 v) ⟨h1, h2, h3⟩ he0 rfl rfl hep
      (adjustedGpts_bound g.endpoint e0 v hep hv)

/-- Postcondition of the `extent` setter on an unlocked grid: it succeeds,
preserves unlockedness and the endpoint flag, stores the requested extent,
keeps gpts when gpts was defined, and keeps gpts undefined when both gpts
and sampling were undefined (when gpts was undefined but sampling defined,
gpts is derived from the new extent). -/
theorem setExtent_unlocked_post (g : Grid d) (hu : allUnlocked g) (v : Vec d) :
    (setExtent g (some v)).2 = none ∧
    allUnlocked (setExtent g (some v)).1 ∧
    (setExtent g (some v)).1.endpoint = g.endpoint ∧
    extentGet (setExtent g (some v)).1 = some v ∧
    (∀ w, gptsGet g = some w → gptsGet (setExtent g (some v)).1 = some w) ∧
    (gptsGet g = none → samplingGet g = none →
      gptsGet (setExtent g (some v)).1 = none) := by
  obtain ⟨h1, h2, h3⟩ := hu
  rcases hg : g.gptsProp.value with _ | gv
  · rcases hs : g.samplingProp.value with _ | sv
    · simp [setExtent, extentGet, gptsGet, samplingGet, allUnlocked, h1, h2, h3, hg, hs]
    · simp [setExtent, extentGet, gptsGet, samplingGet, allUnlocked, h1, h2, h3, hg, hs]
  · simp [setExtent, extentGet, gptsGet, samplingGet, allUnlocked, h1, h2, h3, hg]

/-- Postcondition of the `gpts` setter on an unlocked grid with a defined
extent: it succeeds, preserves unlockedness, the endpoint flag and the
extent, and stores the requested gpts (cast to int). -/
theorem setGpts_unlocked_post (g : Grid d) (hu : allUnlocked g) (e0 : Vec d)
    (he : extentGet g = some e0) (w : Vec d) :
    (setGpts g (some w)).2 = none ∧
    allUnlocked (setGpts g (some w)).1 ∧
    (setGpts g (some w)).1.endpoint = g.endpoint ∧
    extentGet (setGpts g (some w)).1 = some e0 ∧
    gptsGet (setGpts g (some w)).1 = some (qcast (truncInt w)) := by
  obtain ⟨h1, h2, h3⟩ := hu
  rw [extentGet_unlocked _ h2] at he
  simp [setGpts, extentGet, gptsGet, samplingGet, allUnlocked, h1, h2, h3, he]

/-- A passing mismatch check with both extents defined means the extents are
equal (the comparison is exact). -/
theorem check_none_extent_eq (g1 g2 : Grid d) (h : checkGridsCanMatch g1 g2 = none)
    (h1 : (extentGet g1).isSome = true) (h2 : (extentGet g2).isSome = true) :
    extentGet g1 = extentGet g2 := by
  by_contra hne
  simp [checkGridsCanMatch, h1, h2, hne] at h

/-- Postcondition of the extent phase of `match_grid` on unlocked grids:
when at least one extent is defined and the mismatch check passed, the phase
succeeds, keeps both grids unlocked, and leaves both with the same defined
extent. -/
theorem matchExtentPhase_post (g1 g2 : Grid d) (hu1 : allUnlocked g1)
    (hu2 : allUnlocked g2) (hchk : checkGridsCanMatch g1 g2 = none)
    (hsome : extentGet g1 ≠ none ∨ extentGet g2 ≠ none) :
    (matchExtentPhase g1 g2).2 = none ∧
    allUnlocked (matchExtentPhase g1 g2).1.1 ∧
    allUnlocked (matchExtentPhase g1 g2).1.2 ∧
    ∃ e, extentGet (matchExtentPhase g1 g2).1.1 = some e ∧
      extentGet (matchExtentPhase g1 g2).1.2 = some e := by
  rcases he1 : extentGet g1 with _ | e1 <;> rcases he2 : extentGet g2 with _ | e2
  · rcases hsome with hc | hc
    exacts [absurd he1 hc, absurd he2 hc]
  · have hphase : matchExtentPhase g1 g2 =
        (((setExtent g1 (some e2)).1, g2), (setExtent g1 (some e2)).2) := by
      simp [matchExtentPhase, he1, he2]
    obtain ⟨p1, p2, p3, p4, p5, p6⟩ := setExtent_unlocked_post g1 hu1 e2
    rw [hphase]
    exact ⟨p1, p2, hu2, e2, p4, he2⟩
  · have hphase : matchExtentPhase g1 g2 =
        ((g1, (setExtent g2 (some e1)).1), (setExtent g2 (some e1)).2) := by
      simp [matchExtentPhase, he1, he2]
    obtain ⟨p1, p2, p3, p4, p5, p6⟩ := setExtent_unlocked_post g2 hu2 e1
    rw [hphase]
    exact ⟨p1, hu1, p2, e1, he1, p4⟩
  · have hphase : matchExtentPhase g1 g2 = ((g1, g2), none) := by
      simp [matchExtentPhase, he1, he2]
    have heq : extentGet g1 = extentGet g2 :=
      check_none_extent_eq g1 g2 hchk (by rw [he1]; rfl) (by rw [he2]; rfl)
    rw [hphase]
    refine ⟨rfl, hu1, hu2, e1, he1, ?_⟩
    show extentGet g2 = some e1
    rw [← heq, he1]

end Grid

/-! ## Cache (`abtem/bases.py`, class `Cache` and the `notify` decorator)

The two dictionaries `_cache` and `_clear_conditions` are modelled as
association lists (Python dict keys are unique; the theorems assume key
uniqueness where it matters).  A clear condition is `None` ("invalidate on
any change") or a tuple of property names.
-/

structure Cache (α : Type) where
  cache : List (String × α)                          -- self._cache
  clearConditions : List (String × Option (List String))  -- self._clear_conditions

/-- Does a clear condition require purging on a change of property
`notifier`?  (`conditions is None`, or `message['notifier'] in conditions`.) -/
def purgeCond (conditions : Option (List String)) (notifier : String) : Bool :=
  match conditions with
  | none => true
  | some cs => cs.contains notifier

/-- `Cache.notify(observable, message)`: when the message reports an actual
change, collect every key whose clear condition is `None` or contains the
notifier, then pop those keys from both dictionaries; when the message
reports no change, nothing is popped. -/
def Cache.notify (c : Cache α) (notifier : String) (change : Bool) : Cache α :=
  let pop : List String :=
    if change then
      (c.clearConditions.filter fun kc => purgeCond kc.2 notifier).map Prod.fst
    else []
  ⟨c.cache.filter fun kv => !pop.contains kv.1,
    c.clearConditions.filter fun kc => !pop.contains kc.1⟩

/-- The `change` flag computed by the `notify` decorator:
`np.any(old != value)` — true exactly when the old and new values differ. -/
def notifyChangeFlag {d : ℕ} (old new : Option (Vec d)) : Bool :=
  decide (old ≠ new)

/-! ## Accelerator energies and `Waves.apply_ctf` (`abtem/waves/waves.py`)

An accelerator holds an optional energy (eV).  `Energy.check_same_energy` in
`abtem/bases.py` raises on any difference; the `Accelerator` class used by
`Waves.apply_ctf` lives in `abtem/basic/energy.py`, which is not part of the
sources, so its `match` method is modelled from the spec below.
-/

/-- Python truthiness of an optional float: `None` and `0.0` are falsy.
`Waves.apply_ctf` tests `if not ctf.accelerator.energy`. -/
def energyTruthy (e : Option ℚ) : Bool :=
  match e with
  | none => false
  | some x => decide (x ≠ 0)

/-- Modelled from the spec: `Accelerator.match(other, check_match)` from
`abtem/basic/energy.py` is not in the sources.  Per §4.1/§4.3 a `match`
propagates whichever value is defined from one object to the other and, when
checking is requested, "fails if both define an energy and they differ";
mirroring the in-source `Grid.match_grid`, no propagation happens when both
sides already define a value.  Arguments are `(self, other)`; the result is
the pair `(self, other)` of energies after the call. -/
def accMatch (selfE otherE : Option ℚ) (checkMatch : Bool) :
    Except PyError (Option ℚ × Option ℚ) :=
  if checkMatch && selfE.isSome && otherE.isSome && decide (selfE ≠ otherE) then
    Except.error PyError.inconsistentEnergies
  else if otherE.isNone then Except.ok (selfE, selfE)
  else if selfE.isNone then Except.ok (otherE, otherE)
  else Except.ok (selfE, otherE)

/-- The energy-handling prefix of `Waves.apply_ctf` (the part of the method
that can raise an energy error): if the CTF energy is falsy, match the CTF
accelerator to the wave accelerator without checking; then match the wave
accelerator to the CTF accelerator with checking; then
`check_is_defined` on the wave accelerator.  Returns the energy shared by
wave and CTF afterwards. -/
def applyCtfEnergy (waveE ctfE : Option ℚ) : Except PyError ℚ :=
  -- if not ctf.accelerator.energy: ctf.accelerator.match(self.accelerator)
  match (if !energyTruthy ctfE then accMatch ctfE waveE false
         else Except.ok (ctfE, waveE)) with
  | Except.error e => Except.error e
  | Except.ok (ctfE1, waveE1) =>
    -- self.accelerator.match(ctf.accelerator, check_match=True)
    match accMatch waveE1 ctfE1 true with
    | Except.error e => Except.error e
    | Except.ok (waveE2, _ctfE2) =>
      -- self.accelerator.check_is_defined()
      match waveE2 with
      | none => Except.error PyError.energyNotDefined
      | some x => Except.ok x

/-! ## Waves and `Waves.multislice` (`abtem/waves/waves.py`)

`Waves` owns a complex array (opaque here, of type `A`), a grid whose gpts
are locked to the array shape and whose extent is the stored extent, an
accelerator, a beam tilt and an antialias aperture, plus extra leading axis
metadata.  The multislice engine itself (`abtem/waves/multislice.py`) is not
in the sources and is modelled from the spec.
-/

structure AxisMeta where
  label : String
  type : String
  deriving DecidableEq, Repr

structure Waves (A : Type) where
  array : A
  extent : Vec 2                       -- grid extent (gpts locked to array shape)
  energy : Option ℚ
  tilt : ℚ × ℚ
  antialias_aperture : ℚ
  extra_axes_metadata : List AxisMeta
  deriving DecidableEq

/-- `Waves.copy`: copies the array and re-creates grid/accelerator; all
metadata is preserved, so in this pure model it is the identity. -/
def Waves.copy {A : Type} (w : Waves A) : Waves A := w

/-- The potential interface consumed by `Waves.multislice` (spec §6): a
number of frozen-phonon configurations and a lazy sequence of one-config
potentials. -/
structure PotentialOps (P : Type) where
  num_frozen_phonons : P → ℕ
  frozen_phonon_potentials : P → List P

/-- Modelled from the spec: the multislice engine `multislice` from
`abtem/waves/multislice.py` is not in the sources.  Per §4.4 its terminal
state is "the exit wave after the last slice, with grid/energy/tilt/
antialiasing metadata preserved unchanged and only the array content
transformed"; the array transformation is abstracted as the parameter `f`
(the grid/energy compatibility preconditions are checked before the slice
loop and do not affect the successful path modelled here). -/
def multisliceEngine {A P : Type} (f : A → P → A) (w : Waves A) (p : P) : Waves A :=
  { w with array := f w.array p }

/-- `Waves.multislice(potential)`: one engine run when the potential has one
frozen-phonon configuration; otherwise one engine run per configuration on a
copy of the wave, the resulting arrays stacked along a new leading axis
(abstracted as `stack`) and the result rebuilt with
`antialias_aperture=2 / 3.` and a `frozen_phonons`/`ensemble` axis prepended
to the extra axes metadata. -/
def wavesMultislice {A P : Type} (ops : PotentialOps P) (f : A → P → A)
    (stack : List A → A) (w : Waves A) (p : P) : Waves A :=
  if ops.num_frozen_phonons p = 1 then
    multisliceEngine f w p
  else
    let exitWaves := (ops.frozen_phonon_potentials p).map fun q =>
      multisliceEngine f w.copy q
    { array := stack (exitWaves.map Waves.array),
      extent := w.extent,
      energy := w.energy,
      tilt := w.tilt,
      antialias_aperture := 2 / 3,
      extra_axes_metadata := ⟨"frozen_phonons", "ensemble"⟩ :: w.extra_axes_metadata }

/-! ## Detectors (`abtem/detect.py`) -/

/-- The wave batch seen by a detector: a list of 2D wave arrays along the
leading axis (`len(waves.array)` is the length of this list). -/
structure DetectorWaves (M : Type) where
  array : List M

/-- `AnnularDetector` state: inner and outer angle. -/
structure AnnularDetector where
  inner : ℚ
  outer : ℚ
  deriving DecidableEq, Repr

/-- `AnnularDetector.detect(waves)`: the body computing the far-field
intensity and the annular sum is commented out in the source; the method
returns `total = xp.ones(len(waves.array))`, an all-ones vector independent
of the wave content and of the detector angles. -/
def annularDetect {M : Type} (_det : AnnularDetector) (waves : DetectorWaves M) : List ℚ :=
  List.replicate waves.array.length 1

/-- Python `%` on floats: `x - m * floor(x / m)`, landing in `[0, m)` for
`m > 0` (numpy convention, used on the `arctan2` output). -/
def pymod (x m : ℚ) : ℚ := x - m * ⌊x / m⌋

/-- The per-pixel bin label computed by `polar_regions(gpts, sampling,
wavelength, inner, outer, nbins_radial, nbins_azimuthal)` for a pixel whose
scattering angle is `alpha` (`sqrt(alpha_x**2 + alpha_y**2)`, the output of
the external numpy sqrt) and whose azimuth is `theta` (the output of the
external `np.arctan2`); `twoPi` stands for the float `2 * np.pi`.  A valid
pixel (`inner <= alpha < outer`) gets `angular + radial * nbins_azimuthal`
where `radial` is the float `nbins_radial * (alpha - inner) / (outer -
inner)` cast to int (truncation; the value is nonnegative, so it is the
floor) and `angular` is `clip(floor(nbins_azimuthal * ((theta % twoPi) /
twoPi)), 0, nbins_azimuthal - 1)`; any other pixel gets `-1`.  The final
`np.fft.fftshift` permutes pixel positions without changing any label. -/
def polarLabel (nbinsRadial nbinsAzimuthal : ℕ) (inner outer alpha theta twoPi : ℚ) : ℤ :=
  if inner ≤ alpha ∧ alpha < outer then
    let radial : ℤ := ⌊(nbinsRadial : ℚ) * (alpha - inner) / (outer - inner)⌋
    let angles : ℚ := pymod theta twoPi
    let angular : ℤ := min (max ⌊(nbinsAzimuthal : ℚ) * (angles / twoPi)⌋ 0) (nbinsAzimuthal - 1)
    angular + radial * nbinsAzimuthal
  else -1

/-! ## Device shims (`abtem/device.py`) -/

/-- A numpy array of unspecified element layout: either a single 2D array, a
stack of 2D arrays along a leading axis (ndim 3), or an array of any other
rank (whose content never matters, since `fft2_convolve` rejects it). -/
inductive NDArray (α : Type) where
  | two : α → NDArray α
  | three : List α → NDArray α
  | other : ℕ → NDArray α
  deriving DecidableEq

/-- `len(array.shape)`. -/
def NDArray.ndim {α : Type} : NDArray α → ℕ
  | NDArray.two _ => 2
  | NDArray.three _ => 3
  | NDArray.other n => n

/-- The CPU `fft2_convolve(array, kernel, overwrite_x)`.  The external
`mkl_fft.fft2`/`ifft2` (in-place on complex input) and the elementwise
product with the kernel are abstracted as `fft`, `ifft` and `mulKernel`,
so the inner `_fft_convolve` maps a 2D buffer `x` to
`ifft (mulKernel (fft x))`.  When `overwrite_x` is false the input is first
copied, so the inner convolution mutates the copy only.  The result is the
returned array together with the content of the caller's input buffer after
the call. -/
def fft2_convolve {α : Type} (fft ifft : α → α) (mulKernel : α → α)
    (array : NDArray α) (overwriteX : Bool) :
    Except PyError (NDArray α × NDArray α) :=
  let conv := fun x => ifft (mulKernel (fft x))
  match array, overwriteX with
  | NDArray.two x, false => Except.ok (NDArray.two (conv x), NDArray.two x)
  | NDArray.two x, true => Except.ok (NDArray.two (conv x), NDArray.two (conv x))
  | NDArray.three xs, true =>
    Except.ok (NDArray.three (xs.map conv), NDArray.three (xs.map conv))
  | _, _ => Except.error PyError.valueError

/-! ## Claims -/

/-- C4: for every Grid constructed with any two of extent, gpts, sampling
supplied as defined (positive, finite) vectors, and after every subsequent
successful setter call on any of the three with a defined positive value,
the stored values satisfy `extent = gpts * sampling` componentwise
(`extent = (gpts - 1) * sampling` when the grid is endpoint-inclusive),
i.e. extent equals `_adjusted_extent(gpts, sampling)`. -/
theorem grid_two_of_three_invariant {d : ℕ} (g : Grid d) (h : Grid.ReachableGrid g) :
    ∃ e gv s, g.extentProp.value = some e ∧ g.gptsProp.value = some gv ∧
      g.samplingProp.value = some s ∧
      ∀ i, e i = Grid.adjustedExtent g.endpoint (qcast gv) s i := by
  obtain ⟨-, e, gv, s, h1, h2, h3, -, -, -, hrel⟩ := Grid.gridInv_of_reachable g h
  exact ⟨e, gv, s, h1, h2, h3, hrel⟩

/-- Witness for C4: a 2D grid built from extent (4, 6) and gpts (2, 3)
followed by a successful `sampling = (1, 1)` setter call satisfies the
invariant. -/
theorem grid_two_of_three_invariant_witness :
    ∃ e gv s,
      (Grid.setSampling
          (Grid.gridOfValues false (some ![(4 : ℚ), 6]) (some ![(2 : ℤ), 3]) none).1
          (some ![(1 : ℚ), 1])).1.extentProp.value = some e ∧
      (Grid.setSampling
          (Grid.gridOfValues false (some ![(4 : ℚ), 6]) (some ![(2 : ℤ), 3]) none).1
          (some ![(1 : ℚ), 1])).1.gptsProp.value = some gv ∧
      (Grid.setSampling
          (Grid.gridOfValues false (some ![(4 : ℚ), 6]) (some ![(2 : ℤ), 3]) none).1
          (some ![(1 : ℚ), 1])).1.samplingProp.value = some s ∧
      ∀ i, e i = Grid.adjustedExtent
        (Grid.setSampling
          (Grid.gridOfValues false (some ![(4 : ℚ), 6]) (some ![(2 : ℤ), 3]) none).1
          (some ![(1 : ℚ), 1])).1.endpoint (qcast gv) s i :=
  grid_two_of_three_invariant _
    (Grid.ReachableGrid.stepSampling _ ![(1 : ℚ), 1] (by decide)
      (Grid.ReachableGrid.initEG false ![(4 : ℚ), 6] ![(2 : ℤ), 3] (by decide) (by decide))
      (by decide))

/-- C7: on a grid whose gpts and sampling properties are both locked, setting
the extent raises a consistency error (leaving the grid unchanged); and
writing the value of any locked `GridProperty` raises and leaves the stored
value unchanged. -/
theorem grid_locked_write_raises {d : ℕ} {α : Type} (g : Grid d)
    (hg : g.gptsProp.locked = true) (hs : g.samplingProp.locked = true)
    (v : Option (Vec d)) (p : GridProperty d α) (hp : p.locked = true)
    (w : Option (Fin d → α)) :
    Grid.setExtent g v = (g, some PyError.overdetermined) ∧
    GridProperty.setValue p w = (p, some PyError.lockedProperty) := by
  constructor
  · simp [Grid.setExtent, hg, hs]
  · simp [GridProperty.setValue, hp]

/-- Witness for C7: a grid holding gpts (2, 2) and sampling (1, 1) locked to
an array shape rejects a direct extent write, and a locked property rejects a
value write. -/
theorem grid_locked_write_raises_witness :
    Grid.setExtent
        (⟨⟨some ![(5 : ℚ), 5], false⟩, ⟨some ![(2 : ℤ), 2], true⟩,
          ⟨some ![(1 : ℚ), 1], true⟩, false⟩ : Grid 2) (some ![(7 : ℚ), 7]) =
      (⟨⟨some ![(5 : ℚ), 5], false⟩, ⟨some ![(2 : ℤ), 2], true⟩,
          ⟨some ![(1 : ℚ), 1], true⟩, false⟩, some PyError.overdetermined) ∧
    GridProperty.setValue (⟨some ![(3 : ℚ), 3], true⟩ : GridProperty 2 ℚ)
        (some ![(9 : ℚ), 9]) =
      (⟨some ![(3 : ℚ), 3], true⟩, some PyError.lockedProperty) :=
  grid_locked_write_raises _ rfl rfl _ _ rfl _

/-- C3: the divergence of the `gpts` property getter.  On a grid with
extent = (5, 5) and sampling = (2, 2), both locked (endpoint-exclusive), the
getter returns `_adjusted_sampling(extent, sampling) = extent / sampling =
(5/2, 5/2)`, a non-integer float vector, whereas `_adjusted_gpts(extent,
sampling) = ceil(extent / sampling) = (3, 3)` is the integer vector the
specification prescribes — and the two differ. -/
theorem gpts_getter_divergence :
    Grid.gptsGet
        (⟨⟨some ![(5 : ℚ), 5], true⟩, ⟨none, false⟩,
          ⟨some ![(2 : ℚ), 2], true⟩, false⟩ : Grid 2) =
      some ![(5 : ℚ)/2, 5/2] ∧
    Grid.adjustedGpts false ![(5 : ℚ), 5] ![(2 : ℚ), 2] = ![(3 : ℤ), 3] ∧
    some ![(5 : ℚ)/2, 5/2] ≠ (some ![(3 : ℤ), 3]).map qcast := by
  refine ⟨?_, ?_, ?_⟩
  · simp only [Grid.gptsGet]
    norm_num
    funext i
    fin_cases i <;> norm_num [Grid.adjustedSampling]
  · funext i
    fin_cases i <;>
      · simp only [Grid.adjustedGpts]
        norm_num
        rw [Int.ceil_eq_iff]
        constructor <;> norm_num
  · intro h
    have h0 := congrFun (Option.some.inj h) 0
    norm_num [qcast] at h0

/-- C1: `AnnularDetector.detect` returns the constant 1.0 for every wave in
the batch, independent of the wave content (the far-field intensity code is
commented out): a batch holding a constant plane wave (all far-field
intensity at the direct beam, outside the annulus (0.01, 0.02)) and a batch
holding the zero wave (total intensity zero) both yield `[1.0]`. -/
theorem annular_detect_stub :
    annularDetect ⟨1/100, 2/100⟩
        (⟨[fun _ _ => ((1 : ℚ), (0 : ℚ))]⟩ :
          DetectorWaves (Fin 2 → Fin 2 → ℚ × ℚ)) = [1] ∧
    annularDetect ⟨1/100, 2/100⟩
        (⟨[fun _ _ => ((0 : ℚ), (0 : ℚ))]⟩ :
          DetectorWaves (Fin 2 → Fin 2 → ℚ × ℚ)) = [1] :=
  ⟨rfl, rfl⟩

/-- C9: for every 2D complex array, `fft2_convolve(array, kernel,
overwrite_x=False)` returns the inverse transform of the elementwise product
of the forward transform with the kernel, leaving the caller's buffer
unchanged; and for every array of three or more dimensions it raises
`ValueError` when `overwrite_x=False`. -/
theorem fft2_convolve_no_overwrite {α : Type} (fft ifft mulK : α → α) (x : α)
    (a : NDArray α) (h : 3 ≤ a.ndim) :
    fft2_convolve fft ifft mulK (NDArray.two x) false =
      Except.ok (NDArray.two (ifft (mulK (fft x))), NDArray.two x) ∧
    fft2_convolve fft ifft mulK a false = Except.error PyError.valueError := by
  refine ⟨rfl, ?_⟩
  cases a with
  | two y => simp [NDArray.ndim] at h
  | three xs => rfl
  | other n => rfl

/-- Witness for C9: the identity transforms on a one-slice 3D stack. -/
theorem fft2_convolve_no_overwrite_witness :
    fft2_convolve (α := ℚ) id id id (NDArray.two 7) false =
      Except.ok (NDArray.two 7, NDArray.two 7) ∧
    fft2_convolve (α := ℚ) id id id (NDArray.three [7]) false =
      Except.error PyError.valueError :=
  fft2_convolve_no_overwrite id id id 7 (NDArray.three [7]) (by decide)

/-- C8 (amended): for unlocked grids, `match_grid` raises on a mismatch
check failure without mutating either grid; raises when extent is undefined
on both grids; raises when gpts is still undefined on both grids after the
extent phase; and on success leaves both grids with equal extents and with
equal gpts — except when the extent phase left both grids with defined but
differing gpts (the receiving grid can derive gpts from its own sampling
while adopting the extent). -/
theorem match_grid_amended {d : ℕ} (g1 g2 : Grid d)
    (hu1 : Grid.allUnlocked g1) (hu2 : Grid.allUnlocked g2) :
    (∀ er, Grid.checkGridsCanMatch g1 g2 = some er →
      Grid.matchGrid g1 g2 = ((g1, g2), some er)) ∧
    (Grid.extentGet g1 = none → Grid.extentGet g2 = none →
      (Grid.matchGrid g1 g2).2.isSome = true) ∧
    (∀ g1a g2a, Grid.matchGrid g1 g2 = ((g1a, g2a), none) →
      Grid.extentGet g1a = Grid.extentGet g2a ∧
      (Grid.gptsGet g1a = Grid.gptsGet g2a ∨
        ((Grid.gptsGet (Grid.matchExtentPhase g1 g2).1.1).isSome = true ∧
         (Grid.gptsGet (Grid.matchExtentPhase g1 g2).1.2).isSome = true ∧
         Grid.gptsGet (Grid.matchExtentPhase g1 g2).1.1 ≠
           Grid.gptsGet (Grid.matchExtentPhase g1 g2).1.2))) ∧
    (∀ m1 m2, Grid.checkGridsCanMatch g1 g2 = none →
      Grid.matchExtentPhase g1 g2 = ((m1, m2), none) →
      Grid.gptsGet m1 = none → Grid.gptsGet m2 = none →
      Grid.matchGrid g1 g2 = ((m1, m2), some PyError.gptsNotInferable)) := by
  refine ⟨?_, ?_, ?_, ?_⟩
  · intro er he
    simp [Grid.matchGrid, he]
  · intro hn1 hn2
    rcases hchk : Grid.checkGridsCanMatch g1 g2 with _ | er
    · have hphase : Grid.matchExtentPhase g1 g2 =
          ((g1, g2), some PyError.extentNotInferable) := by
        simp [Grid.matchExtentPhase, hn1, hn2]
      simp [Grid.matchGrid, hchk, hphase]
    · simp [Grid.matchGrid, hchk]
  · intro g1a g2a hsucc
    rcases hchk : Grid.checkGridsCanMatch g1 g2 with _ | er
    swap
    · simp [Grid.matchGrid, hchk] at hsucc
    by_cases hnn : Grid.extentGet g1 = none ∧ Grid.extentGet g2 = none
    · have hphase : Grid.matchExtentPhase g1 g2 =
          ((g1, g2), some PyError.extentNotInferable) := by
        simp [Grid.matchExtentPhase, hnn.1, hnn.2]
      simp [Grid.matchGrid, hchk, hphase] at hsucc
    · have hsome : Grid.extentGet g1 ≠ none ∨ Grid.extentGet g2 ≠ none := by tauto
      obtain ⟨q1, q2, q3, e, q4, q5⟩ :=
        Grid.matchExtentPhase_post g1 g2 hu1 hu2 hchk hsome
      set m1 := (Grid.matchExtentPhase g1 g2).1.1 with hm1
      set m2 := (Grid.matchExtentPhase g1 g2).1.2 with hm2
      have hphase_eq : Grid.matchExtentPhase g1 g2 = ((m1, m2), none) := by
        have h' : ((m1, m2), (Grid.matchExtentPhase g1 g2).2) =
            Grid.matchExtentPhase g1 g2 := rfl
        rw [← h', q1]
      have hred : Grid.matchGrid g1 g2 = Grid.matchGptsPhase m1 m2 := by
        simp [Grid.matchGrid, hchk, hphase_eq]
      rw [hred] at hsucc
      rcases hg1 : Grid.gptsGet m1 with _ | w1 <;> rcases hg2 : Grid.gptsGet m2 with _ | w2
      · simp [Grid.matchGptsPhase, hg1, hg2] at hsucc
      · -- copy m2's gpts onto m1
        obtain ⟨gw, hgw, rfl⟩ : ∃ gw, m2.gptsProp.value = some gw ∧ qcast gw = w2 := by
          rw [Grid.gptsGet_unlocked _ q3.1] at hg2
          exact Option.map_eq_some'.mp hg2
        obtain ⟨p1, p2, p3, p4, p5⟩ := Grid.setGpts_unlocked_post m1 q2 e q4 (qcast gw)
        have hphase2 : Grid.matchGptsPhase m1 m2 =
            (((Grid.setGpts m1 (some (qcast gw))).1, m2),
              (Grid.setGpts m1 (some (qcast gw))).2) := by
          simp [Grid.matchGptsPhase, hg1, hg2]
        rw [hphase2, p1] at hsucc
        simp only [Prod.mk.injEq] at hsucc
        obtain ⟨⟨rfl, rfl⟩, -⟩ := hsucc
        refine ⟨p4.trans q5.symm, Or.inl ?_⟩
        rw [p5, Grid.truncInt_qcast, hg2]
      · -- copy m1's gpts onto m2
        obtain ⟨gw, hgw, rfl⟩ : ∃ gw, m1.gptsProp.value = some gw ∧ qcast gw = w1 := by
          rw [Grid.gptsGet_unlocked _ q2.1] at hg1
          exact Option.map_eq_some'.mp hg1
        obtain ⟨p1, p2, p3, p4, p5⟩ := Grid.setGpts_unlocked_post m2 q3 e q5 (qcast gw)
        have hphase2 : Grid.matchGptsPhase m1 m2 =
            ((m1, (Grid.setGpts m2 (some (qcast gw))).1),
              (Grid.setGpts m2 (some (qcast gw))).2) := by
          simp [Grid.matchGptsPhase, hg1, hg2]
        rw [hphase2, p1] at hsucc
        simp only [Prod.mk.injEq] at hsucc
        obtain ⟨⟨rfl, rfl⟩, -⟩ := hsucc
        refine ⟨q4.trans p4.symm, Or.inl ?_⟩
        rw [p5, Grid.truncInt_qcast, hg1]
      · -- both defined: no propagation
        have hphase2 : Grid.matchGptsPhase m1 m2 = ((m1, m2), none) := by
          simp [Grid.matchGptsPhase, hg1, hg2]
        rw [hphase2] at hsucc
        simp only [Prod.mk.injEq] at hsucc
        obtain ⟨⟨rfl, rfl⟩, -⟩ := hsucc
        refine ⟨q4.trans q5.symm, ?_⟩
        by_cases hw : w1 = w2
        · exact Or.inl (by rw [hg1, hg2, hw])
        · refine Or.inr ⟨rfl, rfl, ?_⟩
          simp [hw]
  · intro m1 m2 hchk hphase hg1 hg2
    have hred : Grid.matchGrid g1 g2 = Grid.matchGptsPhase m1 m2 := by
      simp [Grid.matchGrid, hchk, hphase]
    rw [hred]
    simp [Grid.matchGptsPhase, hg1, hg2]

/-- Witness for C8 (amended): matching a fully defined grid (extent (4, 4),
gpts (2, 2), sampling (2, 2)) against an empty grid succeeds and leaves both
grids with equal extent and equal gpts; and matching a grid holding only an
extent against an empty grid reaches the gpts phase with gpts undefined on
both sides and raises `grid gpts cannot be inferred`. -/
theorem match_grid_amended_witness :
    Grid.matchGrid
        (⟨⟨some ![(4 : ℚ), 4], false⟩, ⟨none, false⟩, ⟨none, false⟩, false⟩ : Grid 2)
        ⟨⟨none, false⟩, ⟨none, false⟩, ⟨none, false⟩, false⟩ =
      (((Grid.matchExtentPhase
          (⟨⟨some ![(4 : ℚ), 4], false⟩, ⟨none, false⟩, ⟨none, false⟩, false⟩ : Grid 2)
          ⟨⟨none, false⟩, ⟨none, false⟩, ⟨none, false⟩, false⟩).1.1,
        (Grid.matchExtentPhase
          (⟨⟨some ![(4 : ℚ), 4], false⟩, ⟨none, false⟩, ⟨none, false⟩, false⟩ : Grid 2)
          ⟨⟨none, false⟩, ⟨none, false⟩, ⟨none, false⟩, false⟩).1.2),
        some PyError.gptsNotInferable) ∧
    Grid.extentGet (Grid.matchGrid
        (⟨⟨some ![(4 : ℚ), 4], false⟩, ⟨some ![(2 : ℤ), 2], false⟩,
          ⟨some ![(2 : ℚ), 2], false⟩, false⟩ : Grid 2)
        ⟨⟨none, false⟩, ⟨none, false⟩, ⟨none, false⟩, false⟩).1.1 =
      Grid.extentGet (Grid.matchGrid
        (⟨⟨some ![(4 : ℚ), 4], false⟩, ⟨some ![(2 : ℤ), 2], false⟩,
          ⟨some ![(2 : ℚ), 2], false⟩, false⟩ : Grid 2)
        ⟨⟨none, false⟩, ⟨none, false⟩, ⟨none, false⟩, false⟩).1.2 ∧
    (Grid.gptsGet (Grid.matchGrid
        (⟨⟨some ![(4 : ℚ), 4], false⟩, ⟨some ![(2 : ℤ), 2], false⟩,
          ⟨some ![(2 : ℚ), 2], false⟩, false⟩ : Grid 2)
        ⟨⟨none, false⟩, ⟨none, false⟩, ⟨none, false⟩, false⟩).1.1 =
      Grid.gptsGet (Grid.matchGrid
        (⟨⟨some ![(4 : ℚ), 4], false⟩, ⟨some ![(2 : ℤ), 2], false⟩,
          ⟨some ![(2 : ℚ), 2], false⟩, false⟩ : Grid 2)
        ⟨⟨none, false⟩, ⟨none, false⟩, ⟨none, false⟩, false⟩).1.2 ∨
     ((Grid.gptsGet (Grid.matchExtentPhase
        (⟨⟨some ![(4 : ℚ), 4], false⟩, ⟨some ![(2 : ℤ), 2], false⟩,
          ⟨some ![(2 : ℚ), 2], false⟩, false⟩ : Grid 2)
        ⟨⟨none, false⟩, ⟨none, false⟩, ⟨none, false⟩, false⟩).1.1).isSome = true ∧
      (Grid.gptsGet (Grid.matchExtentPhase
        (⟨⟨some ![(4 : ℚ), 4], false⟩, ⟨some ![(2 : ℤ), 2], false⟩,
          ⟨some ![(2 : ℚ), 2], false⟩, false⟩ : Grid 2)
        ⟨⟨none, false⟩, ⟨none, false⟩, ⟨none, false⟩, false⟩).1.2).isSome = true ∧
      Grid.gptsGet (Grid.matchExtentPhase
        (⟨⟨some ![(4 : ℚ), 4], false⟩, ⟨some ![(2 : ℤ), 2], false⟩,
          ⟨some ![(2 : ℚ), 2], false⟩, false⟩ : Grid 2)
        ⟨⟨none, false⟩, ⟨none, false⟩, ⟨none, false⟩, false⟩).1.1 ≠
      Grid.gptsGet (Grid.matchExtentPhase
        (⟨⟨some ![(4 : ℚ), 4], false⟩, ⟨some ![(2 : ℤ), 2], false⟩,
          ⟨some ![(2 : ℚ), 2], false⟩, false⟩ : Grid 2)
        ⟨⟨none, false⟩, ⟨none, false⟩, ⟨none, false⟩, false⟩).1.2)) :=
  ⟨(match_grid_amended
      (⟨⟨some ![(4 : ℚ), 4], false⟩, ⟨none, false⟩, ⟨none, false⟩, false⟩ : Grid 2)
      ⟨⟨none, false⟩, ⟨none, false⟩, ⟨none, false⟩, false⟩
      (by decide) (by decide)).2.2.2 _ _ rfl rfl rfl rfl,
    (match_grid_amended
      (⟨⟨some ![(4 : ℚ), 4], false⟩, ⟨some ![(2 : ℤ), 2], false⟩,
        ⟨some ![(2 : ℚ), 2], false⟩, false⟩ : Grid 2)
      ⟨⟨none, false⟩, ⟨none, false⟩, ⟨none, false⟩, false⟩
      (by decide) (by decide)).2.2.1 _ _ rfl⟩

/-- C8 counterexample: `match_grid` between a grid defining only sampling
(1, 1) and a grid with extent (5, 5), gpts (3, 3), sampling (5/3, 5/3)
succeeds and leaves the two grids with different gpts — (5, 5) against
(3, 3) — because copying the extent onto the first grid derives its gpts
from its own sampling, and the gpts phase then finds both gpts defined. -/
theorem match_grid_success_unequal_gpts :
    (Grid.matchGrid
        (⟨⟨none, false⟩, ⟨none, false⟩, ⟨some ![(1 : ℚ), 1], false⟩, false⟩ : Grid 2)
        ⟨⟨some ![(5 : ℚ), 5], false⟩, ⟨some ![(3 : ℤ), 3], false⟩,
          ⟨some ![(5 : ℚ)/3, 5/3], false⟩, false⟩).2 = none ∧
    Grid.gptsGet (Grid.matchGrid
        (⟨⟨none, false⟩, ⟨none, false⟩, ⟨some ![(1 : ℚ), 1], false⟩, false⟩ : Grid 2)
        ⟨⟨some ![(5 : ℚ), 5], false⟩, ⟨some ![(3 : ℤ), 3], false⟩,
          ⟨some ![(5 : ℚ)/3, 5/3], false⟩, false⟩).1.1 ≠
      Grid.gptsGet (Grid.matchGrid
        (⟨⟨none, false⟩, ⟨none, false⟩, ⟨some ![(1 : ℚ), 1], false⟩, false⟩ : Grid 2)
        ⟨⟨some ![(5 : ℚ), 5], false⟩, ⟨some ![(3 : ℤ), 3], false⟩,
          ⟨some ![(5 : ℚ)/3, 5/3], false⟩, false⟩).1.2 := by
  have hgrid : Grid.matchGrid
      (⟨⟨none, false⟩, ⟨none, false⟩, ⟨some ![(1 : ℚ), 1], false⟩, false⟩ : Grid 2)
      ⟨⟨some ![(5 : ℚ), 5], false⟩, ⟨some ![(3 : ℤ), 3], false⟩,
        ⟨some ![(5 : ℚ)/3, 5/3], false⟩, false⟩ =
      ((⟨⟨some ![(5 : ℚ), 5], false⟩,
          ⟨some (Grid.adjustedGpts false ![(5 : ℚ), 5] ![(1 : ℚ), 1]), false⟩,
          ⟨some (Grid.adjustedSampling false ![(5 : ℚ), 5]
            (qcast (Grid.adjustedGpts false ![(5 : ℚ), 5] ![(1 : ℚ), 1]))), false⟩,
          false⟩,
        ⟨⟨some ![(5 : ℚ), 5], false⟩, ⟨some ![(3 : ℤ), 3], false⟩,
          ⟨some ![(5 : ℚ)/3, 5/3], false⟩, false⟩), none) := by
    simp [Grid.matchGrid, Grid.checkGridsCanMatch, Grid.matchExtentPhase,
      Grid.matchGptsPhase, Grid.setExtent, Grid.extentGet, Grid.gptsGet, Grid.samplingGet]
  rw [hgrid]
  refine ⟨rfl, ?_⟩
  intro h
  have hsome : (some (qcast (Grid.adjustedGpts false ![(5 : ℚ), 5] ![(1 : ℚ), 1])) :
      Option (Vec 2)) = some (qcast ![(3 : ℤ), 3]) := h
  have h0 := congrFun (Option.some.inj hsome) 0
  have hceil : Grid.adjustedGpts false ![(5 : ℚ), 5] ![(1 : ℚ), 1] 0 = 5 := by
    simp only [Grid.adjustedGpts, Bool.false_eq_true, if_false]
    norm_num
  rw [show (qcast (Grid.adjustedGpts false ![(5 : ℚ), 5] ![(1 : ℚ), 1]) 0 : ℚ) =
      ((Grid.adjustedGpts false ![(5 : ℚ), 5] ![(1 : ℚ), 1] 0 : ℤ) : ℚ) from rfl,
    hceil] at h0
  norm_num [qcast] at h0

/-- In an association list with distinct keys, a key determines its value. -/
theorem assoc_key_unique {β : Type} {l : List (String × β)}
    (h : (l.map Prod.fst).Nodup) {k : String} {b c : β}
    (h1 : (k, b) ∈ l) (h2 : (k, c) ∈ l) : b = c := by
  induction l with
  | nil => simp at h1
  | cons hd tl ih =>
    simp only [List.map_cons, List.nodup_cons] at h
    rcases List.mem_cons.mp h1 with h1a | h1b
    · rcases List.mem_cons.mp h2 with h2a | h2b
      · exact (Prod.mk.inj (h1a.trans h2a.symm)).2
      · exact absurd (List.mem_map.mpr ⟨(k, c), h2b, rfl⟩) (h1a ▸ h.1)
    · rcases List.mem_cons.mp h2 with h2a | h2b
      · exact absurd (List.mem_map.mpr ⟨(k, b), h1b, rfl⟩) (h2a ▸ h.1)
      · exact ih h.2 h1b h2b

/-- C5: for every cache and every change notification: when the notification
reports an actual value change, exactly the entries whose clear condition is
`None` or contains the changed property name are purged (entries whose
condition set excludes it, or which have no condition record, are retained);
when the notification reports no change, nothing is purged. -/
theorem cache_notify_invalidation {α : Type} (c : Cache α) (n : String)
    (hnd : (c.clearConditions.map Prod.fst).Nodup) :
    (Cache.notify c n false = c) ∧
    (∀ key val conds, (key, conds) ∈ c.clearConditions → (key, val) ∈ c.cache →
      (purgeCond conds n = true → (key, val) ∉ (Cache.notify c n true).cache) ∧
      (purgeCond conds n = false → (key, val) ∈ (Cache.notify c n true).cache)) ∧
    (∀ key val, key ∉ c.clearConditions.map Prod.fst → (key, val) ∈ c.cache →
      (key, val) ∈ (Cache.notify c n true).cache) := by
  have hmemcache : ∀ key (val : α), (key, val) ∈ (Cache.notify c n true).cache ↔
      (key, val) ∈ c.cache ∧
      key ∉ (c.clearConditions.filter fun kc => purgeCond kc.2 n).map Prod.fst := by
    intro key val
    simp [Cache.notify, List.mem_filter]
  refine ⟨?_, ?_, ?_⟩
  · simp [Cache.notify]
  · intro key val conds hcc hmem
    constructor
    · intro hpurge hmem2
      exact ((hmemcache key val).mp hmem2).2
        (List.mem_map.mpr ⟨(key, conds), List.mem_filter.mpr ⟨hcc, hpurge⟩, rfl⟩)
    · intro hpurge
      refine (hmemcache key val).mpr ⟨hmem, ?_⟩
      intro hin
      rcases List.mem_map.mp hin with ⟨⟨k2, conds2⟩, h2, hk2⟩
      obtain rfl : k2 = key := hk2
      rcases List.mem_filter.mp h2 with ⟨h2mem, h2p⟩
      have hcc2 : conds = conds2 := assoc_key_unique hnd hcc h2mem
      rw [← hcc2, hpurge] at h2p
      exact Bool.false_ne_true h2p
  · intro key val hnotin hmem
    refine (hmemcache key val).mpr ⟨hmem, ?_⟩
    intro hin
    rcases List.mem_map.mp hin with ⟨kc, hkcmem, hk⟩
    exact hnotin (hk ▸ List.mem_map.mpr ⟨kc, (List.mem_filter.mp hkcmem).1, rfl⟩)

/-- Witness for C5: a cache with three entries — condition `None`, condition
containing `gpts`, condition containing only `energy` — notified of a `gpts`
change: the first two entries are purged, the third is retained, and a
no-change notification leaves the cache untouched. -/
theorem cache_notify_invalidation_witness :
    Cache.notify
        (⟨[("a", 1), ("b", 2), ("c", 3)],
          [("a", none), ("b", some ["gpts"]), ("c", some ["energy"])]⟩ : Cache ℕ)
        "gpts" false =
      ⟨[("a", 1), ("b", 2), ("c", 3)],
        [("a", none), ("b", some ["gpts"]), ("c", some ["energy"])]⟩ ∧
    ("a", 1) ∉ (Cache.notify
        (⟨[("a", 1), ("b", 2), ("c", 3)],
          [("a", none), ("b", some ["gpts"]), ("c", some ["energy"])]⟩ : Cache ℕ)
        "gpts" true).cache ∧
    ("b", 2) ∉ (Cache.notify
        (⟨[("a", 1), ("b", 2), ("c", 3)],
          [("a", none), ("b", some ["gpts"]), ("c", some ["energy"])]⟩ : Cache ℕ)
        "gpts" true).cache ∧
    ("c", 3) ∈ (Cache.notify
        (⟨[("a", 1), ("b", 2), ("c", 3)],
          [("a", none), ("b", some ["gpts"]), ("c", some ["energy"])]⟩ : Cache ℕ)
        "gpts" true).cache := by
  have h := cache_notify_invalidation
    (⟨[("a", 1), ("b", 2), ("c", 3)],
      [("a", none), ("b", some ["gpts"]), ("c", some ["energy"])]⟩ : Cache ℕ)
    "gpts" (by decide)
  exact ⟨h.1,
    (h.2.1 "a" 1 none (by simp) (by simp)).1 (by decide),
    (h.2.1 "b" 2 (some ["gpts"]) (by simp) (by simp)).1 (by decide),
    (h.2.1 "c" 3 (some ["energy"]) (by simp) (by simp)).2 (by decide)⟩

/-- C6: the energy handling of `Waves.apply_ctf` raises the
inconsistent-energies error exactly when both the wave and the CTF define an
energy and the two values differ; when exactly one of the two defines an
energy, the call does not fail and the defined energy is used for both. -/
theorem apply_ctf_energy_check (waveE ctfE : Option ℚ) :
    (applyCtfEnergy waveE ctfE = Except.error PyError.inconsistentEnergies ↔
      ∃ a b, waveE = some a ∧ ctfE = some b ∧ a ≠ b) ∧
    (∀ a, waveE = some a → ctfE = none → applyCtfEnergy waveE ctfE = Except.ok a) ∧
    (∀ b, waveE = none → ctfE = some b → applyCtfEnergy waveE ctfE = Except.ok b) := by
  rcases waveE with _ | a <;> rcases ctfE with _ | b
  · simp [applyCtfEnergy, accMatch, energyTruthy]
  · rcases eq_or_ne b 0 with hb | hb <;>
      simp [applyCtfEnergy, accMatch, energyTruthy, hb]
  · simp [applyCtfEnergy, accMatch, energyTruthy]
  · rcases eq_or_ne b 0 with hb | hb
    · subst hb
      rcases eq_or_ne a 0 with ha | ha
      · subst ha
        simp [applyCtfEnergy, accMatch, energyTruthy]
      · simp [applyCtfEnergy, accMatch, energyTruthy, ha]
    · rcases eq_or_ne a b with hab | hab
      · subst hab
        simp [applyCtfEnergy, accMatch, energyTruthy, hb]
      · simp [applyCtfEnergy, accMatch, energyTruthy, hb, hab]

/-- Witness for C6: a 100 eV wave against an energy-free CTF adopts the wave
energy without error; two differing defined energies raise. -/
theorem apply_ctf_energy_check_witness :
    applyCtfEnergy (some 100) none = Except.ok 100 ∧
    applyCtfEnergy none (some 80) = Except.ok 80 ∧
    applyCtfEnergy (some 100) (some 80) = Except.error PyError.inconsistentEnergies := by
  refine ⟨(apply_ctf_energy_check (some 100) none).2.1 100 rfl rfl,
    (apply_ctf_energy_check none (some 80)).2.2 80 rfl rfl,
    (apply_ctf_energy_check (some 100) (some 80)).1.mpr ⟨100, 80, rfl, rfl, by norm_num⟩⟩

/-- C2 counterexample: a wave with antialias aperture 1/2 propagated through
a potential carrying two frozen-phonon realizations comes back with
antialias aperture 2/3, not 1/2 — the ensemble branch of `Waves.multislice`
hardcodes `antialias_aperture=2 / 3.`. -/
theorem waves_multislice_antialias_counterexample :
    (wavesMultislice (A := ℕ) (P := Unit)
        ⟨fun _ => 2, fun _ => [(), ()]⟩ (fun a _ => a) (fun _ => 0)
        ⟨0, ![4, 4], some 100, (0, 0), 1/2, []⟩ ()).antialias_aperture ≠
      (⟨0, ![4, 4], some 100, (0, 0), 1/2, []⟩ : Waves ℕ).antialias_aperture := by
  simp only [wavesMultislice]
  norm_num

/-- C2 (amended): `Waves.multislice` preserves grid extent, energy, tilt and
antialias aperture (transforming only the array) when the potential has a
single frozen-phonon realization; with several realizations it stacks one
exit wave per realization along a new leading `frozen_phonons`/`ensemble`
axis and preserves extent, energy and tilt, but resets the antialias
aperture to the default 2/3. -/
theorem waves_multislice_metadata {A P : Type} (ops : PotentialOps P)
    (f : A → P → A) (stack : List A → A) (w : Waves A) (p : P) :
    (ops.num_frozen_phonons p = 1 →
      wavesMultislice ops f stack w p = { w with array := f w.array p }) ∧
    (ops.num_frozen_phonons p ≠ 1 →
      (wavesMultislice ops f stack w p).extent = w.extent ∧
      (wavesMultislice ops f stack w p).energy = w.energy ∧
      (wavesMultislice ops f stack w p).tilt = w.tilt ∧
      (wavesMultislice ops f stack w p).antialias_aperture = 2 / 3 ∧
      (wavesMultislice ops f stack w p).extra_axes_metadata =
        ⟨"frozen_phonons", "ensemble"⟩ :: w.extra_axes_metadata) := by
  constructor
  · intro h1
    simp [wavesMultislice, h1, multisliceEngine]
  · intro h1
    simp [wavesMultislice, h1]

/-- C10: `polar_regions` assigns to each frequency pixel whose scattering
angle `alpha` lies in `[inner, outer)` a label `angular + radial *
nbins_azimuthal` with `0 ≤ radial < nbins_radial` and `0 ≤ angular <
nbins_azimuthal`, hence a label in `[0, nbins_radial * nbins_azimuthal)`;
every pixel outside that range gets the label `-1`. -/
theorem polar_regions_label (nR nA : ℕ) (inner outer alpha theta twoPi : ℚ)
    (hnR : 0 < nR) (hnA : 0 < nA) (hin : 0 ≤ inner) (hio : inner < outer) :
    (inner ≤ alpha ∧ alpha < outer →
      0 ≤ polarLabel nR nA inner outer alpha theta twoPi ∧
      polarLabel nR nA inner outer alpha theta twoPi < (nR : ℤ) * (nA : ℤ) ∧
      ∃ radial angular : ℤ, 0 ≤ radial ∧ radial < (nR : ℤ) ∧
        0 ≤ angular ∧ angular < (nA : ℤ) ∧
        polarLabel nR nA inner outer alpha theta twoPi = angular + radial * (nA : ℤ)) ∧
    (¬(inner ≤ alpha ∧ alpha < outer) →
      polarLabel nR nA inner outer alpha theta twoPi = -1) := by
  constructor
  · intro hv
    rcases hv with ⟨h1, h2⟩
    have hod : (0 : ℚ) < outer - inner := by linarith
    have hnRq : (0 : ℚ) < (nR : ℚ) := by exact_mod_cast hnR
    have hnAz : (0 : ℤ) < (nA : ℤ) := by exact_mod_cast hnA
    have hnRz : (0 : ℤ) < (nR : ℤ) := by exact_mod_cast hnR
    -- bounds for the radial bin
    have hr0 : 0 ≤ ⌊(nR : ℚ) * (alpha - inner) / (outer - inner)⌋ :=
      Int.floor_nonneg.mpr
        (div_nonneg (mul_nonneg hnRq.le (by linarith)) hod.le)
    have hr1 : ⌊(nR : ℚ) * (alpha - inner) / (outer - inner)⌋ < (nR : ℤ) := by
      apply Int.floor_lt.mpr
      rw [div_lt_iff hod]
      push_cast
      nlinarith
    -- bounds for the angular bin
    have ha0 : 0 ≤ min (max ⌊(nA : ℚ) * (pymod theta twoPi / twoPi)⌋ 0) ((nA : ℤ) - 1) :=
      le_min (le_max_right _ _) (by omega)
    have ha1 : min (max ⌊(nA : ℚ) * (pymod theta twoPi / twoPi)⌋ 0) ((nA : ℤ) - 1) <
        (nA : ℤ) :=
      lt_of_le_of_lt (min_le_right _ _) (by omega)
    simp only [polarLabel, if_pos (And.intro h1 h2)]
    refine ⟨?_, ?_, _, _, hr0, hr1, ha0, ha1, rfl⟩
    · exact add_nonneg ha0 (mul_nonneg hr0 hnAz.le)
    · have hrle : ⌊(nR : ℚ) * (alpha - inner) / (outer - inner)⌋ * (nA : ℤ) ≤
          ((nR : ℤ) - 1) * (nA : ℤ) :=
        mul_le_mul_of_nonneg_right (by omega) hnAz.le
      nlinarith
  · intro hv
    simp only [polarLabel, if_neg hv]

/-- Witness for C10: nbins_radial = 2, nbins_azimuthal = 4, inner = 0,
outer = 1, a pixel at scattering angle 1/2 and azimuth 9 rad (with the float
standing for 2π taken as 4): the label is 1 + 1 * 4 = 5, inside [0, 8). -/
theorem polar_regions_label_witness :
    0 ≤ polarLabel 2 4 0 1 (1/2) 9 4 ∧
    polarLabel 2 4 0 1 (1/2) 9 4 < 2 * 4 ∧
    polarLabel 2 4 0 1 (1/2) 9 4 = 5 := by
  have h := (polar_regions_label 2 4 0 1 (1/2) 9 4
    (by norm_num) (by norm_num) le_rfl (by norm_num)).1 ⟨by norm_num, by norm_num⟩
  refine ⟨h.1, by exact_mod_cast h.2.1, ?_⟩
  have hf1 : ⌊(9 : ℚ) / 4⌋ = 2 := by
    rw [Int.floor_eq_iff]
    norm_num
  unfold polarLabel pymod
  rw [if_pos (show (0:ℚ) ≤ 1/2 ∧ (1/2:ℚ) < 1 by norm_num)]
  rw [hf1]
  norm_num

/-- Witness for C2 (amended), at a two-realization potential. -/
theorem waves_multislice_metadata_witness :
    (wavesMultislice (A := ℕ) (P := Unit)
        ⟨fun _ => 2, fun _ => [(), ()]⟩ (fun a _ => a) (fun _ => 0)
        ⟨0, ![4, 4], some 100, (0, 0), 1/2, []⟩ ()).extent = ![4, 4] ∧
    (wavesMultislice (A := ℕ) (P := Unit)
        ⟨fun _ => 2, fun _ => [(), ()]⟩ (fun a _ => a) (fun _ => 0)
        ⟨0, ![4, 4], some 100, (0, 0), 1/2, []⟩ ()).energy = some 100 ∧
    (wavesMultislice (A := ℕ) (P := Unit)
        ⟨fun _ => 2, fun _ => [(), ()]⟩ (fun a _ => a) (fun _ => 0)
        ⟨0, ![4, 4], some 100, (0, 0), 1/2, []⟩ ()).antialias_aperture = 2 / 3 := by
  have h := (waves_multislice_metadata (A := ℕ) (P := Unit)
    ⟨fun _ => 2, fun _ => [(), ()]⟩ (fun a _ => a) (fun _ => 0)
    ⟨0, ![4, 4], some 100, (0, 0), 1/2, []⟩ ()).2 (by decide)
  exact ⟨h.1, h.2.1, h.2.2.2.1⟩

end AbTEM
